import Mathlib

/-!
Verification development for the pairing-and-relay backend
(`backend/main.py`) and the desktop agent (`desktop-agent/agent.py`).

The backend's `ConnectionManager` is embedded as a pair of partial maps from
access codes to websocket handles; its methods are translated one-to-one,
each returning the new manager state together with the list of side effects
(websocket accepts / closes / sends) the Python method performs.  The agent's
command executor, inbound message loop and screen-stream loop are embedded as
pure functions over a JSON-like value type, with the opaque OS capability
layer (pyautogui / subprocess) abstracted as an oracle record and Python
exceptions modelled by `Except`.
-/

namespace AIControl

/-- JSON-like values exchanged over the websocket channel (the payloads of
`send_json` / `json.dumps` / `json.loads` in the source). -/
inductive JVal where
  | jnull
  | jint (n : Int)
  | jstr (s : String)
  | jobj (fields : List (String × JVal))

/-- First-match lookup in an object's field list (Python dict lookup; the
concrete messages in the source never carry duplicate keys). -/
def jlookup : List (String × JVal) → String → Option JVal
  | [], _ => none
  | (k, v) :: rest, key => if k = key then some v else jlookup rest key

/-- Python `value.get(key)`: succeeds with an optional field on a dict,
raises `AttributeError` on any non-dict value (quotes of the Python message
are elided). -/
def pyGet : JVal → String → Except String (Option JVal)
  | .jobj fs, key => .ok (jlookup fs key)
  | .jnull, _ => .error "AttributeError: NoneType object has no attribute get"
  | _, _ => .error "AttributeError: object has no attribute get"

/-- Python `str()` of an optional value as it appears inside the f-strings of
`execute_command` (`None` for a missing parameter).  The repr of a nested
dict is not needed by any claim and is collapsed to a placeholder. -/
def pyStr : Option JVal → String
  | none => "None"
  | some .jnull => "None"
  | some (.jint n) => toString n
  | some (.jstr s) => s
  | some (.jobj _) => "\x7bdict\x7d"

/-- Python `value == "s"` for a value of unknown type: true exactly when the
value is the string `s` (comparison with `None` or a non-string is `False`). -/
def isStr : Option JVal → String → Bool
  | some (.jstr t), s => t = s
  | _, _ => false

/-! ## Backend: `ConnectionManager` (`backend/main.py`) -/

/-- A websocket connection handle, identified abstractly. -/
abbrev Handle := Nat

/-- Connection-lifecycle side effects a manager method can perform on a
handle.  `connect_web` / `connect_agent` call `websocket.accept()`;
`close` is in the effect vocabulary (the websocket API offers it) but the
source never emits it. -/
inductive MgrEffect where
  | accept (h : Handle)
  | close (h : Handle)
  deriving DecidableEq

/-- A `send_json` call on a handle (from `send_to_agent` / `send_to_web`). -/
inductive SendEffect where
  | sendJson (h : Handle) (message : JVal)

/-- `ConnectionManager`: `active_connections` maps an access code to the web
(controller) handle, `agent_connections` to the agent handle.  A Python dict
holds at most one value per key, so each map is code → optional handle. -/
structure ConnectionManager where
  active_connections : String → Option Handle
  agent_connections : String → Option Handle

/-- The manager constructed in `__init__`: both dicts empty. -/
def emptyManager : ConnectionManager :=
  { active_connections := fun _ => none, agent_connections := fun _ => none }

/-- `connect_web`: `await websocket.accept()` then
`self.active_connections[access_code] = websocket` (plain dict assignment —
an existing entry is overwritten, nothing is closed). -/
def ConnectionManager.connect_web (m : ConnectionManager) (access_code : String)
    (h : Handle) : ConnectionManager × List MgrEffect :=
  ({ m with active_connections :=
      fun c => if c = access_code then some h else m.active_connections c },
   [MgrEffect.accept h])

/-- `connect_agent`: `await websocket.accept()` then
`self.agent_connections[access_code] = websocket`. -/
def ConnectionManager.connect_agent (m : ConnectionManager) (access_code : String)
    (h : Handle) : ConnectionManager × List MgrEffect :=
  ({ m with agent_connections :=
      fun c => if c = access_code then some h else m.agent_connections c },
   [MgrEffect.accept h])

/-- `disconnect_web`: `if access_code in self.active_connections: del ...`.
No effect on the handle itself, no exception when the key is absent. -/
def ConnectionManager.disconnect_web (m : ConnectionManager)
    (access_code : String) : ConnectionManager :=
  { m with active_connections :=
      fun c => if c = access_code then none else m.active_connections c }

/-- `disconnect_agent`: `if access_code in self.agent_connections: del ...`. -/
def ConnectionManager.disconnect_agent (m : ConnectionManager)
    (access_code : String) : ConnectionManager :=
  { m with agent_connections :=
      fun c => if c = access_code then none else m.agent_connections c }

/-- `send_to_agent`: `if access_code in self.agent_connections: await
self.agent_connections[access_code].send_json(message)` — reads the registry,
never mutates it, does nothing when the key is absent. -/
def ConnectionManager.send_to_agent (m : ConnectionManager) (access_code : String)
    (message : JVal) : ConnectionManager × List SendEffect :=
  match m.agent_connections access_code with
  | some h => (m, [SendEffect.sendJson h message])
  | none => (m, [])

/-- `send_to_web`: symmetric to `send_to_agent` over `active_connections`. -/
def ConnectionManager.send_to_web (m : ConnectionManager) (access_code : String)
    (message : JVal) : ConnectionManager × List SendEffect :=
  match m.active_connections access_code with
  | some h => (m, [SendEffect.sendJson h message])
  | none => (m, [])

/-! ## Backend: `websocket_endpoint` relay loop -/

/-- The registration step of `websocket_endpoint`: `if client_type == "web":
connect_web else connect_agent`. -/
def wsRegister (m : ConnectionManager) (code client_type : String) (h : Handle) :
    ConnectionManager × List MgrEffect :=
  if client_type = "web" then m.connect_web code h else m.connect_agent code h

/-- One iteration of the relay loop body: `if client_type == "agent":
send_to_web(code, data) else: send_to_agent(code, data)`.  The branch is on
the source's role only; `data` is forwarded verbatim. -/
def relayOne (m : ConnectionManager) (code client_type : String) (data : JVal) :
    ConnectionManager × List SendEffect :=
  if client_type = "agent" then m.send_to_web code data
  else m.send_to_agent code data

/-- The relay loop over a finite trace of messages received from one socket
(`while True: data = await websocket.receive_json(); ...`).  The loop body
only reads the manager, so the registry state is threaded unchanged. -/
def relayLoop (m : ConnectionManager) (code client_type : String) :
    List JVal → List SendEffect
  | [] => []
  | d :: ds => (relayOne m code client_type d).2 ++ relayLoop m code client_type ds

/-! ## Agent: command executor (`desktop-agent/agent.py`, `execute_command`) -/

/-- Outcome of one opaque OS capability invocation: the Python call returned
normally, or raised an exception with message `msg`. -/
inductive CapResult where
  | ok
  | exn (msg : String)

/-- A record of one capability invocation with the raw (possibly missing)
arguments the executor passed, e.g. `pyautogui.click(x, y)` becomes
`click x y`.  For `open_url` / `open_app` the per-platform subprocess choice
is inside the opaque capability (spec §1(c)). -/
inductive CapCall where
  | click (x y : Option JVal)
  | moveTo (x y : Option JVal)
  | write (text : Option JVal)
  | press (key : Option JVal)
  | openURL (url : Option JVal)
  | openApp (app : Option JVal)
  | scroll (amount : JVal)

/-- The capability layer (pyautogui / subprocess) as an oracle: for each
capability, whether the call with the given arguments returns or raises. -/
structure Capabilities where
  click : Option JVal → Option JVal → CapResult
  moveTo : Option JVal → Option JVal → CapResult
  write : Option JVal → CapResult
  press : Option JVal → CapResult
  openURL : Option JVal → CapResult
  openApp : Option JVal → CapResult
  scroll : JVal → CapResult

/-- Apply the oracle to a recorded call. -/
def capApply (caps : Capabilities) : CapCall → CapResult
  | .click x y => caps.click x y
  | .moveTo x y => caps.moveTo x y
  | .write t => caps.write t
  | .press k => caps.press k
  | .openURL u => caps.openURL u
  | .openApp a => caps.openApp a
  | .scroll a => caps.scroll a

/-- The result dicts returned by `execute_command`:
`{'status': status, 'message': message}`. -/
def mkResult (status message : String) : JVal :=
  .jobj [("status", .jstr status), ("message", .jstr message)]

/-- The seven recognized values of `command_type`, plus the fall-through
`else` branch, as tested by the string comparisons in `execute_command`. -/
inductive CKind where
  | mouse_click | mouse_move | keyboard_type | keyboard_press
  | open_url | open_app | scroll | unknown

/-- The `if command_type == 'mouse_click': ... elif ... else` chain of
`execute_command`, as a selector over `command_type`. -/
def kindOf (ctype : Option JVal) : CKind :=
  if isStr ctype "mouse_click" then .mouse_click
  else if isStr ctype "mouse_move" then .mouse_move
  else if isStr ctype "keyboard_type" then .keyboard_type
  else if isStr ctype "keyboard_press" then .keyboard_press
  else if isStr ctype "open_url" then .open_url
  else if isStr ctype "open_app" then .open_app
  else if isStr ctype "scroll" then .scroll
  else .unknown

/-- The recognized command-type strings, for stating the `else` branch. -/
def knownKinds : List String :=
  ["mouse_click", "mouse_move", "keyboard_type", "keyboard_press",
   "open_url", "open_app", "scroll"]

/-- Invoke one capability inside the `try` block: on normal return the branch
returns `{'status': 'success', 'message': okMsg}`; a raise propagates to the
`except` handler.  Either way the call was made. -/
def runCap : CapResult → CapCall → String → Except String JVal × List CapCall
  | .ok, call, okMsg => (.ok (mkResult "success" okMsg), [call])
  | .exn m, call, _ => (.error m, [call])

/-- The body of the `try` block of `execute_command`: parameter fetches
(`params.get(...)`, which raises on a non-dict `params`), one capability
invocation for a recognized kind, and the `else` branch for an unknown kind.
Returns the branch's result-or-exception together with the capability calls
made. -/
def execBody (caps : Capabilities) (ctype : Option JVal) (params : JVal) :
    Except String JVal × List CapCall :=
  match kindOf ctype with
  | .mouse_click =>
    match pyGet params "x" with
    | .error e => (.error e, [])
    | .ok x =>
      match pyGet params "y" with
      | .error e => (.error e, [])
      | .ok y =>
        runCap (caps.click x y) (.click x y)
          ("Clicked at (" ++ pyStr x ++ ", " ++ pyStr y ++ ")")
  | .mouse_move =>
    match pyGet params "x" with
    | .error e => (.error e, [])
    | .ok x =>
      match pyGet params "y" with
      | .error e => (.error e, [])
      | .ok y =>
        runCap (caps.moveTo x y) (.moveTo x y)
          ("Moved to (" ++ pyStr x ++ ", " ++ pyStr y ++ ")")
  | .keyboard_type =>
    match pyGet params "text" with
    | .error e => (.error e, [])
    | .ok t => runCap (caps.write t) (.write t) ("Typed: " ++ pyStr t)
  | .keyboard_press =>
    match pyGet params "key" with
    | .error e => (.error e, [])
    | .ok k => runCap (caps.press k) (.press k) ("Pressed: " ++ pyStr k)
  | .open_url =>
    match pyGet params "url" with
    | .error e => (.error e, [])
    | .ok u => runCap (caps.openURL u) (.openURL u) ("Opened URL: " ++ pyStr u)
  | .open_app =>
    match pyGet params "app" with
    | .error e => (.error e, [])
    | .ok a => runCap (caps.openApp a) (.openApp a) ("Opened app: " ++ pyStr a)
  | .scroll =>
    match pyGet params "amount" with
    | .error e => (.error e, [])
    | .ok aOpt =>
      let amount := aOpt.getD (.jint 0)
      runCap (caps.scroll amount) (.scroll amount)
        ("Scrolled: " ++ pyStr (some amount))
  | .unknown =>
    (.ok (mkResult "error" ("Unknown command type: " ++ pyStr ctype)), [])

/-- The `except Exception as e` handler wrapping the `try` body: a raised
exception becomes `{'status': 'error', 'message': str(e)}`. -/
def finishTry : Except String JVal × List CapCall → JVal × List CapCall
  | (.ok r, cs) => (r, cs)
  | (.error m, cs) => (mkResult "error" m, cs)

/-- `execute_command(command_data)`.  The two `command_data.get(...)` calls
sit *outside* the `try` block, so their `AttributeError` (for a `None` or
non-dict `command_data`) propagates to the caller; everything else is caught.
`params` defaults to `{}` when the key is absent. -/
def execute_command (caps : Capabilities) (command_data : JVal) :
    Except String (JVal × List CapCall) :=
  match pyGet command_data "type" with
  | .error e => .error e
  | .ok ctype =>
    match pyGet command_data "params" with
    | .error e => .error e
    | .ok pOpt => .ok (finishTry (execBody caps ctype (pOpt.getD (.jobj []))))

/-! ## Agent: inbound message loop (`connect`) -/

/-- The agent state the inbound loop mutates: `self.fps` (initialised to the
integer `5` in `__init__` and reassigned verbatim by a `set_fps` message). -/
structure AgentSt where
  fps : JVal

/-- `AIControlAgent.__init__`: `self.fps = 5`. -/
def initialAgent : AgentSt := { fps := .jint 5 }

/-- Observable actions of the inbound loop body: a capability invocation, a
`websocket.send` of a JSON message, or a console print. -/
inductive AgentEffect where
  | cap (c : CapCall)
  | send (message : JVal)
  | print (s : String)

/-- One iteration of `async for message in websocket` in `connect`:
dispatch on `data.get('type')`.  A `command` message runs `execute_command`
on `data.get('command')` (which is `None` when absent — `execute_command`
then raises) and sends exactly one `command_result` envelope; a `set_fps`
message assigns `self.fps = data.get('fps', 5)`; anything else is ignored. -/
def handle_message (caps : Capabilities) (s : AgentSt) (data : JVal) :
    Except String (AgentSt × List AgentEffect) :=
  match pyGet data "type" with
  | .error e => .error e
  | .ok ty =>
    if isStr ty "command" then
      match pyGet data "command" with
      | .error e => .error e
      | .ok cmdOpt =>
        match execute_command caps (cmdOpt.getD .jnull) with
        | .error e => .error e
        | .ok (result, calls) =>
          .ok (s, calls.map AgentEffect.cap ++
            [AgentEffect.send
              (.jobj [("type", .jstr "command_result"), ("result", result)])])
    else if isStr ty "set_fps" then
      match pyGet data "fps" with
      | .error e => .error e
      | .ok fOpt =>
        let f := fOpt.getD (.jint 5)
        .ok ({ s with fps := f },
          [AgentEffect.print ("FPS updated to: " ++ pyStr (some f))])
    else
      .ok (s, [])

/-- The inbound loop over a finite trace of received messages: each message
is handled to completion (its `execute_command` awaited and its result sent)
before the next is read — dispatch is serialized, one command in flight. -/
def agent_loop (caps : Capabilities) (s : AgentSt) :
    List JVal → Except String (AgentSt × List AgentEffect)
  | [] => .ok (s, [])
  | d :: ds =>
    match handle_message caps s d with
    | .error e => .error e
    | .ok (s1, es1) =>
      match agent_loop caps s1 ds with
      | .error e => .error e
      | .ok (s2, es2) => .ok (s2, es1 ++ es2)

/-! ## Agent: screen stream loop (`screen_stream_loop`) -/

/-- The environment of one tick of the pacer loop: either capture and
transmission succeed (with the captured frame data and the value `self.fps`
holds at this tick), or one of them raises with message `e`. -/
inductive TickEnv where
  | ok (frame : String) (fps : JVal)
  | ioError (e : String)

/-- Observable actions of one pacer tick. -/
inductive StreamEffect where
  | sendFrame (frame : String)
  | report (msg : String)
  | sleep (q : ℚ)

/-- Python `1 / fps`: defined for a nonzero int, `ZeroDivisionError` for
zero, `TypeError` for a non-numeric value. -/
def pyInv : JVal → Except String ℚ
  | .jint k => if k = 0 then .error "division by zero" else .ok (1 / (k : ℚ))
  | _ => .error "unsupported operand type for division"

/-- The body of one `while self.running` iteration of `screen_stream_loop`:
capture, send the frame envelope, `await asyncio.sleep(1 / self.fps)`;
on any exception, `print(f"Screen capture error: {e}")` then
`await asyncio.sleep(1)`.  The sleep argument is computed from `self.fps`
as read at this tick. -/
def stream_tick : TickEnv → List StreamEffect
  | .ioError e =>
    [StreamEffect.report ("Screen capture error: " ++ e), StreamEffect.sleep 1]
  | .ok frame fps =>
    match pyInv fps with
    | .ok q => [StreamEffect.sendFrame frame, StreamEffect.sleep q]
    | .error e =>
      [StreamEffect.sendFrame frame,
       StreamEffect.report ("Screen capture error: " ++ e), StreamEffect.sleep 1]

/-- The pacer loop over a finite trace of tick environments (the trace ends
when `self.running` is cleared on disconnect).  Every tick is processed:
no outcome of one tick terminates the loop. -/
def screen_stream_loop : List TickEnv → List StreamEffect
  | [] => []
  | t :: ts => stream_tick t ++ screen_stream_loop ts

/-! ## Derived definitions used by the statements -/

/-- The result-and-calls pair `execute_command` produces on a dict envelope
(where its two leading `get` calls cannot raise). -/
def execPair (caps : Capabilities) (fs : List (String × JVal)) : JVal × List CapCall :=
  finishTry (execBody caps (jlookup fs "type") ((jlookup fs "params").getD (.jobj [])))

/-- The websocket message the backend hands to the agent for one command:
`{'type': 'command', 'command': {...}}` (the shape `/api/execute-command`
sends). -/
def wrapCommand (fs : List (String × JVal)) : JVal :=
  .jobj [("type", .jstr "command"), ("command", .jobj fs)]

/-- The `{'type': 'command_result', 'result': ...}` envelope the agent sends
back after executing the command `fs`. -/
def resultEnvelope (caps : Capabilities) (fs : List (String × JVal)) : JVal :=
  .jobj [("type", .jstr "command_result"), ("result", (execPair caps fs).1)]

/-- The effect trace of handling one wrapped command: the capability calls,
then exactly one `command_result` send. -/
def commandEffects (caps : Capabilities) (fs : List (String × JVal)) :
    List AgentEffect :=
  (execPair caps fs).2.map AgentEffect.cap ++ [AgentEffect.send (resultEnvelope caps fs)]

/-- The messages sent over the websocket within an agent effect trace. -/
def sends : List AgentEffect → List JVal
  | [] => []
  | AgentEffect.send m :: es => m :: sends es
  | _ :: es => sends es

/-! ## Concrete fixtures for witnesses and counterexamples -/

/-- A capability oracle on which every invocation returns normally. -/
def capsOk : Capabilities :=
  { click := fun _ _ => .ok, moveTo := fun _ _ => .ok, write := fun _ => .ok,
    press := fun _ => .ok, openURL := fun _ => .ok, openApp := fun _ => .ok,
    scroll := fun _ => .ok }

/-- A capability oracle whose pointer-click raises `boom`. -/
def capsBoom : Capabilities :=
  { capsOk with click := fun _ _ => .exn "boom" }

/-- The registry after a controller (handle 1) and an agent (handle 2) both
connect under code `demo`. -/
def demoMgr : ConnectionManager :=
  ((emptyManager.connect_web "demo" 1).1.connect_agent "demo" 2).1

/-- The scenario command: `{type: 'mouse_click', params: {x: 100, y: 200}}`. -/
def demoCmd : JVal :=
  .jobj [("type", .jstr "mouse_click"),
         ("params", .jobj [("x", .jint 100), ("y", .jint 200)])]

/-- The scenario command wrapped in a `command` envelope, as the backend's
command path actually transmits it. -/
def demoCmdEnv : JVal := .jobj [("type", .jstr "command"), ("command", demoCmd)]

/-- The result envelope the scenario expects back. -/
def demoResultEnv : JVal :=
  .jobj [("type", .jstr "command_result"),
         ("result", mkResult "success" "Clicked at (100, 200)")]

/-! ## Claims about the Session Registry and Relay Router -/

/-- C1 (counterexample): two successive `connect_web` calls for code `c`
with handles 1 then 2, starting from the empty registry, perform only the
two `accept`s — the prior handle 1 is *not* closed — while the registry ends
up holding handle 2.  This refutes the part of the claim that says the prior
handle is closed before being replaced. -/
theorem connect_does_not_close_prior :
    (emptyManager.connect_web "c" 1).2 ++
      ((emptyManager.connect_web "c" 1).1.connect_web "c" 2).2 =
      [MgrEffect.accept 1, MgrEffect.accept 2] ∧
    MgrEffect.close 1 ∉
      (emptyManager.connect_web "c" 1).2 ++
        ((emptyManager.connect_web "c" 1).1.connect_web "c" 2).2 ∧
    ((emptyManager.connect_web "c" 1).1.connect_web "c" 2).1.active_connections "c"
      = some 2 := by
  refine ⟨rfl, ?_, rfl⟩
  decide

/-- C1 (amended): at most one controller handle and at most one agent handle
are registered per access code at any instant, and a later `connect_web` /
`connect_agent` for a (code, role) that already has a handle replaces it in
the registry (last-writer-wins) — but the prior handle is only dropped, not
closed: the only connection-lifecycle effect either connect performs is the
`accept` of the new handle. -/
theorem connect_last_writer_wins (m : ConnectionManager) (code : String) (h : Handle) :
    ((m.connect_web code h).1.active_connections code = some h ∧
      (m.connect_web code h).2 = [MgrEffect.accept h]) ∧
    ((m.connect_agent code h).1.agent_connections code = some h ∧
      (m.connect_agent code h).2 = [MgrEffect.accept h]) ∧
    (∀ h1 h2 : Handle, m.active_connections code = some h1 →
      m.active_connections code = some h2 → h1 = h2) ∧
    (∀ h1 h2 : Handle, m.agent_connections code = some h1 →
      m.agent_connections code = some h2 → h1 = h2) := by
  refine ⟨⟨?_, rfl⟩, ⟨?_, rfl⟩, ?_, ?_⟩
  · simp [ConnectionManager.connect_web]
  · simp [ConnectionManager.connect_agent]
  · intro h1 h2 e1 e2
    rw [e1] at e2
    exact Option.some.inj e2
  · intro h1 h2 e1 e2
    rw [e1] at e2
    exact Option.some.inj e2

/-- Witness for C1 (amended), at the demo registry, which has a controller
handle registered under `demo`. -/
theorem connect_last_writer_wins_witness :
    (demoMgr.connect_web "demo" 7).1.active_connections "demo" = some 7 ∧
    (1 : Handle) = 1 :=
  ⟨(connect_last_writer_wins demoMgr "demo" 7).1.1,
   (connect_last_writer_wins demoMgr "demo" 7).2.2.1 1 1 rfl rfl⟩

/-- C2: when the opposite role is connected under the code, the relay loop
delivers every envelope received from the source verbatim, exactly once, in
receive order, to the paired handle; the statement quantifies over arbitrary
envelopes, so delivery never depends on an envelope's content, only on the
source's role ("web" traffic goes to the agent handle, "agent" traffic to
the web handle). -/
theorem relay_delivers_in_order (m : ConnectionManager) (code : String)
    (hA hW : Handle) (msgs : List JVal) :
    (m.agent_connections code = some hA →
      relayLoop m code "web" msgs = msgs.map (SendEffect.sendJson hA)) ∧
    (m.active_connections code = some hW →
      relayLoop m code "agent" msgs = msgs.map (SendEffect.sendJson hW)) := by
  constructor
  · intro h
    induction msgs with
    | nil => rfl
    | cons d ds ih =>
      simp [relayLoop, relayOne, ConnectionManager.send_to_agent, h, ih]
  · intro h
    induction msgs with
    | nil => rfl
    | cons d ds ih =>
      simp [relayLoop, relayOne, ConnectionManager.send_to_web, h, ih]

/-- Witness for C2: both directions of the demo registry, on concrete
message lists. -/
theorem relay_delivers_in_order_witness :
    relayLoop demoMgr "demo" "web" [demoCmdEnv, demoCmd] =
      [demoCmdEnv, demoCmd].map (SendEffect.sendJson 2) ∧
    relayLoop demoMgr "demo" "agent" [demoResultEnv] =
      [demoResultEnv].map (SendEffect.sendJson 1) :=
  ⟨(relay_delivers_in_order demoMgr "demo" 2 1 [demoCmdEnv, demoCmd]).1 rfl,
   (relay_delivers_in_order demoMgr "demo" 2 1 [demoResultEnv]).2 rfl⟩

/-- C3: when the destination role has no registered handle under the code —
in particular for a completely unknown code — `send_to_agent` /
`send_to_web` deliver nothing, return normally (they are total: no exception
reaches the sender), and leave the registry state unchanged. -/
theorem send_absent_silent_drop (m : ConnectionManager) (code : String)
    (message : JVal) :
    (m.agent_connections code = none → m.send_to_agent code message = (m, [])) ∧
    (m.active_connections code = none → m.send_to_web code message = (m, [])) := by
  constructor
  · intro h
    simp [ConnectionManager.send_to_agent, h]
  · intro h
    simp [ConnectionManager.send_to_web, h]

/-- Witness for C3: an unknown code on the empty registry, both roles. -/
theorem send_absent_silent_drop_witness :
    emptyManager.send_to_agent "nobody" (.jstr "ping") = (emptyManager, []) ∧
    emptyManager.send_to_web "nobody" (.jstr "ping") = (emptyManager, []) :=
  ⟨(send_absent_silent_drop emptyManager "nobody" (.jstr "ping")).1 rfl,
   (send_absent_silent_drop emptyManager "nobody" (.jstr "ping")).2 rfl⟩

/-- C10: `disconnect_web` (resp. `disconnect_agent`) removes only that
role's handle for that code — the opposite role's map is untouched and every
other code's entry is unchanged — and disconnecting a (code, role) with no
registered handle raises nothing and leaves the registry identical. -/
theorem disconnect_only_that_role (m : ConnectionManager) (code : String) :
    (m.disconnect_web code).active_connections code = none ∧
    (∀ c, c ≠ code →
      (m.disconnect_web code).active_connections c = m.active_connections c) ∧
    (m.disconnect_web code).agent_connections = m.agent_connections ∧
    (m.active_connections code = none → m.disconnect_web code = m) ∧
    (m.disconnect_agent code).agent_connections code = none ∧
    (∀ c, c ≠ code →
      (m.disconnect_agent code).agent_connections c = m.agent_connections c) ∧
    (m.disconnect_agent code).active_connections = m.active_connections ∧
    (m.agent_connections code = none → m.disconnect_agent code = m) := by
  refine ⟨?_, ?_, rfl, ?_, ?_, ?_, rfl, ?_⟩
  · simp [ConnectionManager.disconnect_web]
  · intro c hc
    simp [ConnectionManager.disconnect_web, hc]
  · intro h
    cases m with
    | mk a g =>
      simp only [ConnectionManager.disconnect_web, ConnectionManager.mk.injEq,
        and_true]
      funext c
      by_cases hc : c = code
      · subst hc
        simpa using h.symm
      · simp [hc]
  · simp [ConnectionManager.disconnect_agent]
  · intro c hc
    simp [ConnectionManager.disconnect_agent, hc]
  · intro h
    cases m with
    | mk a g =>
      simp only [ConnectionManager.disconnect_agent, ConnectionManager.mk.injEq,
        true_and]
      funext c
      by_cases hc : c = code
      · subst hc
        simpa using h.symm
      · simp [hc]

/-- Witness for C10: disconnecting an absent role on the empty registry is a
no-op, and an unrelated code's entry survives a disconnect of the demo
registry. -/
theorem disconnect_only_that_role_witness :
    emptyManager.disconnect_web "x" = emptyManager ∧
    emptyManager.disconnect_agent "x" = emptyManager ∧
    (demoMgr.disconnect_web "other").active_connections "demo" =
      demoMgr.active_connections "demo" :=
  ⟨(disconnect_only_that_role emptyManager "x").2.2.2.1 rfl,
   (disconnect_only_that_role emptyManager "x").2.2.2.2.2.2.2 rfl,
   (disconnect_only_that_role demoMgr "other").2.1 "demo" (by decide)⟩

/-! ## Helper lemmas about the executor and the agent loops -/

/-- On a dict envelope the two leading `get` calls of `execute_command`
cannot raise, so it returns the `try`-block outcome. -/
theorem exec_on_obj (caps : Capabilities) (fs : List (String × JVal)) :
    execute_command caps (.jobj fs) = .ok (execPair caps fs) := rfl

/-- Handling one wrapped command message: the state is unchanged and the
effects are the capability calls followed by exactly one result send. -/
theorem handle_message_command (caps : Capabilities) (s : AgentSt)
    (fs : List (String × JVal)) :
    handle_message caps s (wrapCommand fs) = .ok (s, commandEffects caps fs) := by
  rcases hp : execPair caps fs with ⟨r, cs⟩
  have h2 : execute_command caps (.jobj fs) = .ok (r, cs) := by
    rw [exec_on_obj, hp]
  simp +decide [handle_message, wrapCommand, pyGet, jlookup, isStr, h2,
    commandEffects, resultEnvelope, hp]

theorem sends_append (a b : List AgentEffect) :
    sends (a ++ b) = sends a ++ sends b := by
  induction a with
  | nil => rfl
  | cons e es ih => cases e <;> simp [sends, ih]

theorem sends_caps_map (cs : List CapCall) :
    sends (cs.map AgentEffect.cap) = [] := by
  induction cs with
  | nil => rfl
  | cons c cs ih => simp [sends, ih]

theorem sends_commandEffects (caps : Capabilities) (fs : List (String × JVal)) :
    sends (commandEffects caps fs) = [resultEnvelope caps fs] := by
  simp [commandEffects, sends_append, sends_caps_map, sends]

/-- When `command_type` matches none of the seven recognized strings, the
`if` chain falls through to the `else` branch. -/
theorem kindOf_of_not_known (ty : Option JVal)
    (h : knownKinds.any (fun k => isStr ty k) = false) : kindOf ty = .unknown := by
  simp only [knownKinds, List.any_cons, List.any_nil, Bool.or_false,
    Bool.or_eq_false_iff] at h
  obtain ⟨h1, h2, h3, h4, h5, h6, h7⟩ := h
  simp [kindOf, h1, h2, h3, h4, h5, h6, h7]

/-- If a capability invocation inside the `try` block raises, the `except`
handler turns exactly that message into the error result. -/
theorem runCap_exn (caps : Capabilities) (cr : CapResult) (call : CapCall)
    (okMsg : String) (res : JVal) (c : CapCall) (m : String)
    (hcr : capApply caps call = cr)
    (h1 : finishTry (runCap cr call okMsg) = (res, [c]))
    (h2 : capApply caps c = .exn m) : res = mkResult "error" m := by
  cases cr with
  | ok =>
    simp [runCap, finishTry] at h1
    obtain ⟨hres, hc⟩ := h1
    subst hc
    rw [hcr] at h2
    cases h2
  | exn m0 =>
    simp [runCap, finishTry] at h1
    obtain ⟨hres, hc⟩ := h1
    subst hc
    rw [hcr] at h2
    cases h2
    exact hres.symm

/-- Across every branch of `execute_command`'s dispatch: if the recorded
capability call raised, the returned result is the error result carrying
that exception's message. -/
theorem execPair_exn (caps : Capabilities) (ctype : Option JVal) (params : JVal)
    (res : JVal) (c : CapCall) (m : String)
    (h1 : finishTry (execBody caps ctype params) = (res, [c]))
    (h2 : capApply caps c = .exn m) : res = mkResult "error" m := by
  cases hk : kindOf ctype <;> simp only [execBody, hk] at h1
  case mouse_click =>
    cases hx : pyGet params "x" with
    | error e => rw [hx] at h1; simp [finishTry] at h1
    | ok x =>
      rw [hx] at h1
      cases hy : pyGet params "y" with
      | error e => rw [hy] at h1; simp [finishTry] at h1
      | ok y =>
        rw [hy] at h1
        exact runCap_exn caps (caps.click x y) (.click x y) _ res c m rfl h1 h2
  case mouse_move =>
    cases hx : pyGet params "x" with
    | error e => rw [hx] at h1; simp [finishTry] at h1
    | ok x =>
      rw [hx] at h1
      cases hy : pyGet params "y" with
      | error e => rw [hy] at h1; simp [finishTry] at h1
      | ok y =>
        rw [hy] at h1
        exact runCap_exn caps (caps.moveTo x y) (.moveTo x y) _ res c m rfl h1 h2
  case keyboard_type =>
    cases ht : pyGet params "text" with
    | error e => rw [ht] at h1; simp [finishTry] at h1
    | ok t =>
      rw [ht] at h1
      exact runCap_exn caps (caps.write t) (.write t) _ res c m rfl h1 h2
  case keyboard_press =>
    cases hkk : pyGet params "key" with
    | error e => rw [hkk] at h1; simp [finishTry] at h1
    | ok k =>
      rw [hkk] at h1
      exact runCap_exn caps (caps.press k) (.press k) _ res c m rfl h1 h2
  case open_url =>
    cases hu : pyGet params "url" with
    | error e => rw [hu] at h1; simp [finishTry] at h1
    | ok u =>
      rw [hu] at h1
      exact runCap_exn caps (caps.openURL u) (.openURL u) _ res c m rfl h1 h2
  case open_app =>
    cases ha : pyGet params "app" with
    | error e => rw [ha] at h1; simp [finishTry] at h1
    | ok a =>
      rw [ha] at h1
      exact runCap_exn caps (caps.openApp a) (.openApp a) _ res c m rfl h1 h2
  case scroll =>
    cases ha : pyGet params "amount" with
    | error e => rw [ha] at h1; simp [finishTry] at h1
    | ok aOpt =>
      rw [ha] at h1
      exact runCap_exn caps (caps.scroll (aOpt.getD (.jint 0)))
        (.scroll (aOpt.getD (.jint 0))) _ res c m rfl h1 h2
  case unknown =>
    simp [finishTry] at h1

/-! ## Claims about the Command Executor and the agent loops -/

/-- C4 (counterexample): for the Command Envelope
`{type: 'mouse_click'}` — whose required integer parameters x and y are
missing — the executor does *not* fail validation: it invokes the
pointer-click capability with both arguments absent (`None`), and (here,
with a capability that accepts the call) returns a *success* result,
not a Failed one. -/
theorem no_validation_counterexample :
    execute_command capsOk (.jobj [("type", .jstr "mouse_click")]) =
      .ok (mkResult "success" "Clicked at (None, None)",
        [CapCall.click none none]) := rfl

/-- C4 (amended): the executor performs no parameter validation: a
`mouse_click` without x and y invokes pointer-click with both coordinates
absent (`None`); the result is Failed only when that capability invocation
raises, and then it carries the exception's message — otherwise a success
result is reported. -/
theorem missing_params_passed_to_capability (caps : Capabilities) :
    (caps.click none none = .ok →
      execute_command caps (.jobj [("type", .jstr "mouse_click")]) =
        .ok (mkResult "success" "Clicked at (None, None)",
          [CapCall.click none none])) ∧
    (∀ m, caps.click none none = .exn m →
      execute_command caps (.jobj [("type", .jstr "mouse_click")]) =
        .ok (mkResult "error" m, [CapCall.click none none])) := by
  have base : execute_command caps (.jobj [("type", .jstr "mouse_click")]) =
      .ok (finishTry (runCap (caps.click none none) (CapCall.click none none)
        "Clicked at (None, None)")) := rfl
  constructor
  · intro h
    rw [base, h]
    rfl
  · intro m h
    rw [base, h]
    rfl

/-- Witness for C4 (amended): a capability that accepts the call yields the
success result; one that raises `boom` yields the error result — the call
is made either way. -/
theorem missing_params_passed_to_capability_witness :
    execute_command capsOk (.jobj [("type", .jstr "mouse_click")]) =
      .ok (mkResult "success" "Clicked at (None, None)",
        [CapCall.click none none]) ∧
    execute_command capsBoom (.jobj [("type", .jstr "mouse_click")]) =
      .ok (mkResult "error" "boom", [CapCall.click none none]) :=
  ⟨(missing_params_passed_to_capability capsOk).1 rfl,
   (missing_params_passed_to_capability capsBoom).2 "boom" rfl⟩

/-- C5: over any finite sequence of Command Envelopes received by the agent
(each wrapped in the `command` message the backend transmits), the inbound
loop — which is serialized, handling each message to completion before
reading the next — emits exactly one Result Envelope per command, in the
order the commands were received, and leaves the agent state unchanged. -/
theorem serialized_one_result_per_command (caps : Capabilities) (s : AgentSt)
    (cmds : List (List (String × JVal))) :
    ∃ es, agent_loop caps s (cmds.map wrapCommand) = .ok (s, es) ∧
      sends es = cmds.map (resultEnvelope caps) := by
  induction cmds generalizing s with
  | nil => exact ⟨[], rfl, rfl⟩
  | cons fs rest ih =>
    obtain ⟨es, h1, h2⟩ := ih s
    refine ⟨commandEffects caps fs ++ es, ?_, ?_⟩
    · simp [agent_loop, handle_message_command, h1]
    · simp [sends_append, sends_commandEffects, h2]

/-- C6: on every Command Envelope (a dict), the executor returns a result
and never raises; an unrecognized `CommandKind` yields a Failed (status
`error`) result whose message names the unknown kind; and any exception
raised by the invoked capability is caught and yields a Failed result
carrying the exception's message. -/
theorem executor_total_and_fails_safe (caps : Capabilities)
    (fs : List (String × JVal)) :
    (∃ out, execute_command caps (.jobj fs) = .ok out) ∧
    (knownKinds.any (fun k => isStr (jlookup fs "type") k) = false →
      execute_command caps (.jobj fs) =
        .ok (mkResult "error"
          ("Unknown command type: " ++ pyStr (jlookup fs "type")), [])) ∧
    (∀ res c m, execute_command caps (.jobj fs) = .ok (res, [c]) →
      capApply caps c = .exn m → res = mkResult "error" m) := by
  refine ⟨⟨execPair caps fs, rfl⟩, ?_, ?_⟩
  · intro h
    have hk := kindOf_of_not_known _ h
    rw [exec_on_obj]
    simp [execPair, execBody, hk, finishTry]
  · intro res c m h1 h2
    rw [exec_on_obj] at h1
    have h1' : execPair caps fs = (res, [c]) := by
      simpa using h1
    exact execPair_exn caps (jlookup fs "type")
      ((jlookup fs "params").getD (.jobj [])) res c m h1' h2

/-- Witness for C6: an unknown kind `foo` yields the named error result, and
a pointer-click capability that raises `boom` yields the `boom` error
result. -/
theorem executor_total_and_fails_safe_witness :
    execute_command capsOk (.jobj [("type", .jstr "foo")]) =
      .ok (mkResult "error" ("Unknown command type: " ++
        pyStr (jlookup [("type", JVal.jstr "foo")] "type")), []) ∧
    mkResult "error" "boom" = mkResult "error" "boom" :=
  ⟨(executor_total_and_fails_safe capsOk [("type", .jstr "foo")]).2.1 (by decide),
   (executor_total_and_fails_safe capsBoom
       [("type", .jstr "mouse_click"),
        ("params", .jobj [("x", .jint 1), ("y", .jint 2)])]).2.2
     (mkResult "error" "boom") (.click (some (.jint 1)) (some (.jint 2))) "boom"
     rfl rfl⟩

/-- C7: the pacer's fps parameter defaults to the integer 5 before any
directive; a `set_fps` message carrying a positive integer k updates the
agent's fps to k, and a tick executed with fps k sleeps exactly 1/k — each
tick reads `self.fps` afresh when computing its sleep, so a directive takes
effect at the next tick boundary and never retroactively alters a tick
already under way. -/
theorem set_fps_directive (caps : Capabilities) (s : AgentSt) (k : Int)
    (frame : String) (hk : 0 < k) :
    initialAgent.fps = .jint 5 ∧
    handle_message caps s (.jobj [("type", .jstr "set_fps"), ("fps", .jint k)]) =
      .ok ({ fps := .jint k },
        [AgentEffect.print ("FPS updated to: " ++ toString k)]) ∧
    stream_tick (.ok frame (.jint k)) =
      [StreamEffect.sendFrame frame, StreamEffect.sleep (1 / (k : ℚ))] := by
  refine ⟨rfl, rfl, ?_⟩
  have h0 : k ≠ 0 := ne_of_gt hk
  simp [stream_tick, pyInv, h0]

/-- Witness for C7 at fps 10. -/
theorem set_fps_directive_witness :
    stream_tick (.ok "frame" (.jint 10)) =
      [StreamEffect.sendFrame "frame", StreamEffect.sleep (1 / ((10 : Int) : ℚ))] :=
  (set_fps_directive capsOk initialAgent 10 "frame" (by decide)).2.2

/-- C8: a tick on which capture or transmission raises does not terminate
the pacer loop: the failure is reported, the loop sleeps the fixed backoff
of 1 second, and the remaining ticks are processed exactly as they would
have been — more generally every tick's effects are followed by the rest of
the loop, so no tick outcome crashes the loop. -/
theorem tick_failure_continues (e : String) (t : TickEnv) (ts : List TickEnv) :
    screen_stream_loop (TickEnv.ioError e :: ts) =
      StreamEffect.report ("Screen capture error: " ++ e) ::
        StreamEffect.sleep 1 :: screen_stream_loop ts ∧
    screen_stream_loop (t :: ts) = stream_tick t ++ screen_stream_loop ts :=
  ⟨rfl, rfl⟩

/-- C9 (counterexample): with controller (handle 1) and agent (handle 2)
both connected under `demo`, the raw envelope
`{type: 'mouse_click', params: {x: 100, y: 200}}` sent by the controller is
relayed verbatim to the agent — but the agent's inbound loop ignores it
(its type is neither `command` nor `set_fps`): no capability is invoked and
no `command_result` is emitted, refuting the claimed behaviour. -/
theorem scenario_unwrapped_ignored :
    relayOne demoMgr "demo" "web" demoCmd =
      (demoMgr, [SendEffect.sendJson 2 demoCmd]) ∧
    handle_message capsOk initialAgent demoCmd = .ok (initialAgent, []) :=
  ⟨rfl, rfl⟩

/-- C9 (amended): when the controller instead sends the command wrapped as
`{type: 'command', command: {type: 'mouse_click', params: {x: 100, y: 200}}}`
(the shape the backend's command path transmits), the relay delivers it to
the agent's handle, the agent invokes pointer-click(100, 200) and emits
`{type: 'command_result', result: {status: 'success', message:
'Clicked at (100, 200)'}}`, and the relay delivers that envelope unmodified
to the controller's handle. -/
theorem scenario_demo_roundtrip :
    relayOne demoMgr "demo" "web" demoCmdEnv =
      (demoMgr, [SendEffect.sendJson 2 demoCmdEnv]) ∧
    handle_message capsOk initialAgent demoCmdEnv =
      .ok (initialAgent,
        [AgentEffect.cap (.click (some (.jint 100)) (some (.jint 200))),
         AgentEffect.send demoResultEnv]) ∧
    relayOne demoMgr "demo" "agent" demoResultEnv =
      (demoMgr, [SendEffect.sendJson 1 demoResultEnv]) :=
  ⟨rfl, rfl, rfl⟩

end AIControl
